import Mathlib

/-!
Verification of the data-cleaning and statistical-summary pipeline of
`DataCleaningAndVisualizationTool` (`src/main.py`, class `DataAnalysisTool`).

The tool stores its table as a pandas `DataFrame`.  We embed a DataFrame
shallowly as a list of named, typed columns: numeric columns
(pandas dtype `int64`/`float64`) hold `Option ℚ` cells (`none` models `NaN`),
object columns (dtype `object`) hold `Option String` cells.  Pandas reductions
(`mean`, `std`, `median`, `mode`, `nunique`, `describe`) skip `NaN` cells, so
every statistic below is computed over the non-null cells of a column.
-/

namespace DataTool

/-- A column of a pandas DataFrame: numeric (`int64`/`float64`) with `NaN`
modelled as `none`, or object (text) with missing values as `none`. -/
inductive ColData : Type
  | num : List (Option ℚ) → ColData
  | obj : List (Option String) → ColData
deriving DecidableEq

/-- A DataFrame: ordered named columns (`self.data`). -/
abbrev Dataset : Type := List (String × ColData)

/-- The non-null cells of a numeric column, in row order
(pandas reductions skip `NaN`). -/
def nonNulls (c : List (Option ℚ)) : List ℚ :=
  c.filterMap id

/-- Arithmetic mean of a list of rationals (`Series.mean` over the
non-null cells; `0` stands in for the `NaN` that pandas returns on an
empty column — callers guard that case). -/
def meanQ (l : List ℚ) : ℚ :=
  l.sum / l.length

/-- Pandas `Series.fillna(v)`: every null cell becomes `v`, non-null cells
are unchanged. -/
def fillWith (v : ℚ) (c : List (Option ℚ)) : List (Option ℚ) :=
  c.map (fun x => some (x.getD v))

/-- From `main.py` line 156: `self.data[col].fillna(self.data[col].mean(), inplace=True)`.
When every cell is null, `mean()` is `NaN` and `fillna(NaN)` is a no-op,
so the column is returned unchanged in that case. -/
def meanFillCol (c : List (Option ℚ)) : List (Option ℚ) :=
  if nonNulls c = [] then c else fillWith (meanQ (nonNulls c)) c

/-- Pandas `Series.median()` of the non-null cells: middle of the sorted values,
or the average of the two middle values for an even count. -/
def medianQ (l : List ℚ) : ℚ :=
  let s := l.insertionSort (· ≤ ·)
  let n := s.length
  if n % 2 = 1 then s.getD (n / 2) 0
  else (s.getD (n / 2 - 1) 0 + s.getD (n / 2) 0) / 2

/-- From `main.py` line 158: median fill; like mean fill, `fillna(NaN)` on an
all-null column is a no-op. -/
def medianFillCol (c : List (Option ℚ)) : List (Option ℚ) :=
  if nonNulls c = [] then c else fillWith (medianQ (nonNulls c)) c

/-- Pandas `Series.mode()` of the non-null cells: the distinct values attaining the
maximal occurrence count, returned sorted in ascending order (pandas sorts
the modes; the result is empty when there are no non-null cells). -/
def modesQ (l : List ℚ) : List ℚ :=
  let d := (l.dedup).insertionSort (· ≤ ·)
  let m := (d.map (fun v => l.count v)).foldr max 0
  d.filter (fun v => l.count v = m)

/-- From `main.py` lines 160-161: `mode_val = self.data[col].mode().iloc[0]` then
`fillna(mode_val)`.  `.iloc[0]` on the empty mode Series raises `IndexError`;
that failure is modelled as `none`. -/
def modeFillCol (c : List (Option ℚ)) : Option (List (Option ℚ)) :=
  match modesQ (nonNulls c) with
  | [] => none
  | v :: _ => some (fillWith v c)

/-- Apply a per-column transformation to every numeric column of the dataset,
leaving object columns untouched (`main.py` lines 153-161: the fill loop
runs only for columns whose dtype is `int64`/`float64`). -/
def fillNumCols (f : List (Option ℚ) → List (Option ℚ)) : Dataset → Dataset :=
  List.map (fun e =>
    match e with
    | (nm, ColData.num c) => (nm, ColData.num (f c))
    | (nm, ColData.obj c) => (nm, ColData.obj c))

/-- Function `handle_missing_values` with method `mean`. -/
def meanFill (ds : Dataset) : Dataset :=
  fillNumCols meanFillCol ds

/-- Function `handle_missing_values` with method `median`. -/
def medianFill (ds : Dataset) : Dataset :=
  fillNumCols medianFillCol ds

/-- Function `handle_missing_values` with method `mode`: the Python loop fills columns
left to right and aborts with an uncaught `IndexError` at the first numeric
column whose cells are all null, leaving that column and all later columns
unchanged (in-place mutation keeps the earlier fills).  The `Bool` is the
error flag: `true` when the loop aborted. -/
def modeFillRun : Dataset → Dataset × Bool
  | [] => ([], false)
  | (nm, ColData.obj c) :: rest =>
      let r := modeFillRun rest
      ((nm, ColData.obj c) :: r.1, r.2)
  | (nm, ColData.num c) :: rest =>
      match modeFillCol c with
      | none => ((nm, ColData.num c) :: rest, true)
      | some c2 =>
          let r := modeFillRun rest
          ((nm, ColData.num c2) :: r.1, r.2)

/-- Pandas `Series.fillna(s)` on an object column. -/
def fillObjCol (s : String) (c : List (Option String)) : List (Option String) :=
  c.map (fun x => some (x.getD s))

/-- Function `handle_missing_values` with method `custom` (`main.py` lines 142-151):
the loop fills columns left to right; a numeric column evaluates
`float(fill_value)` — `numVal` is `some q` when the supplied text parses as
a number and `none` otherwise, in which case `float` raises `ValueError`,
aborting the loop with that column and all later columns unchanged (earlier
columns keep their in-place fills).  Object columns are filled with
`str(fill_value)` and never fail.  The `Bool` is the error flag. -/
def customFillRun (numVal : Option ℚ) (s : String) : Dataset → Dataset × Bool
  | [] => ([], false)
  | (nm, ColData.obj c) :: rest =>
      let r := customFillRun numVal s rest
      ((nm, ColData.obj (fillObjCol s c)) :: r.1, r.2)
  | (nm, ColData.num c) :: rest =>
      match numVal with
      | none => ((nm, ColData.num c) :: rest, true)
      | some v =>
          let r := customFillRun numVal s rest
          ((nm, ColData.num (fillWith v c)) :: r.1, r.2)

/-- Pandas `DataFrame.drop_duplicates(keep='first')`: keep the first occurrence of
each row value, preserving row order.  Realised as last-occurrence
deduplication of the reversed row list. -/
def drop_duplicates_first {α : Type _} [DecidableEq α] (l : List α) : List α :=
  (l.reverse.dedup).reverse

/-- Pandas `DataFrame.drop_duplicates(keep='last')`: keep the last occurrence of each
row value, preserving row order (this is exactly `List.dedup`). -/
def drop_duplicates_last {α : Type _} [DecidableEq α] (l : List α) : List α :=
  l.dedup

/-- Function `remove_duplicates` (`main.py` lines 163-173), acting on the list of rows.
Strategies offered to the user are `'first'`, `'last'`, `'all'`.  Note the
`'all'` branch calls `self.data.drop_duplicates(inplace=True)` with no `keep`
argument, whose pandas default is `keep='first'` — not `keep=False`. -/
def remove_duplicates {α : Type _} [DecidableEq α] (strat : String) (l : List α) : List α :=
  if strat = "all" then drop_duplicates_first l
  else if strat = "last" then drop_duplicates_last l
  else drop_duplicates_first l

/-- Sample variance of a list of rationals: `Series.var()` with pandas'
default `ddof=1`, i.e. `Σ (x − mean)² / (n − 1)`.  `Series.std()` is its
square root; pandas returns `NaN` for fewer than two values (`0` stands in
here — every consumer below guards the `n ≤ 1` case explicitly). -/
def sampleVar (l : List ℚ) : ℚ :=
  if l.length ≤ 1 then 0
  else ((l.map (fun x => (x - meanQ l) ^ 2)).sum) / ((l.length : ℚ) - 1)

/-- Function `detect_outliers` (`main.py` lines 175-189) on the chosen numeric column:
`z = (x − mean) / std` with `std = Series.std()` (the `ddof=1` sample
estimator, i.e. `√(sampleVar)`), and the report keeps the rows with
`|z| > threshold`.  The square-root-free test `(x − mean)² > t² · var`
is equivalent to `|x − mean| / √var > t` for `t ≥ 0` and `var > 0`; when
`var` is `0` or undefined (fewer than two non-null values) every `z` is
`NaN` and `NaN > t` is `False` in pandas, as is the comparison for a `NaN`
cell — those rows are never kept.  Returns the flagged cell values in row
order. -/
def detect_outliers (c : List (Option ℚ)) (t : ℚ) : List ℚ :=
  let nn := nonNulls c
  let μ := meanQ nn
  let v := sampleVar nn
  c.filterMap (fun cell =>
    match cell with
    | none => none
    | some x =>
        if 2 ≤ nn.length ∧ v ≠ 0 ∧ t ^ 2 * v < (x - μ) ^ 2 then some x else none)

/-- The semantic field types assigned by `identify_field_types`
(`main.py` lines 99-119). -/
inductive FieldType : Type
  | categorical : FieldType
  | string : FieldType
  | numeric : FieldType
  | datetime : FieldType
deriving DecidableEq

/-- Pandas `Series.nunique()` on an object column: the number of distinct
non-null values. -/
def nuniqueObj (c : List (Option String)) : ℕ :=
  (c.filterMap id).dedup.length

/-- Function `identify_field_types` on a column of dtype `object` (`main.py` lines
107-112): `categorical` when `nunique() <= 10`, else `string`. -/
def classifyObj (c : List (Option String)) : FieldType :=
  if nuniqueObj c ≤ 10 then FieldType.categorical else FieldType.string

/-- The numeric-column record of `DataFrame.describe()`: count, mean, std,
min, the three quartiles, max.  `stdSq` is the square of the reported `std`
(the `ddof=1` sample variance), kept rational to stay square-root-free. -/
structure NumStats : Type where
  count : ℕ
  mean : ℚ
  stdSq : ℚ
  min : ℚ
  p25 : ℚ
  p50 : ℚ
  p75 : ℚ
  max : ℚ
deriving DecidableEq

/-- Percentile with linear interpolation between ranks (numpy / pandas
default), over an ascending-sorted non-empty list `s`:
rank `pos = q·(n−1)`, value `s[⌊pos⌋] + (pos − ⌊pos⌋)·(s[⌊pos⌋+1] − s[⌊pos⌋])`. -/
def percentileQ (q : ℚ) (s : List ℚ) : ℚ :=
  let n := s.length
  let pos : ℚ := q * ((n : ℚ) - 1)
  let i : ℕ := pos.floor.toNat
  let lo := s.getD i 0
  let hi := s.getD (i + 1) lo
  lo + (pos - (i : ℚ)) * (hi - lo)

/-- Pandas `describe()` on one numeric column (over its non-null cells). -/
def numericDescribe (c : List (Option ℚ)) : NumStats :=
  let nn := nonNulls c
  let s := nn.insertionSort (· ≤ ·)
  { count := nn.length
    mean := meanQ nn
    stdSq := sampleVar nn
    min := s.headD 0
    p25 := percentileQ (1 / 4) s
    p50 := percentileQ (1 / 2) s
    p75 := percentileQ (3 / 4) s
    max := (s.getLast?).getD 0 }

/-- One entry of the statistics table returned by `describe()`: the numeric
record, or the object-column summary (non-null count, distinct count) that
`describe` emits for object columns when the frame has no numeric column. -/
inductive ColSummary : Type
  | numS : NumStats → ColSummary
  | objS : ℕ → ℕ → ColSummary
deriving DecidableEq

/-- Whether a column is numeric (dtype `int64`/`float64`). -/
def isNum : ColData → Bool
  | ColData.num _ => true
  | ColData.obj _ => false

/-- Function `perform_statistical_analysis` (`main.py` lines 202-206):
`self.data.describe()`.  Pandas' default: when the frame has at least one
numeric column, only the numeric columns are described; only when every
column is non-numeric are the object columns summarised (by non-null count,
distinct count, top value and its frequency — the top/frequency pair is
omitted here, no claim depends on it). -/
def perform_statistical_analysis (ds : Dataset) : List (String × ColSummary) :=
  if ds.any (fun e => isNum e.2) then
    ds.filterMap (fun e =>
      match e with
      | (nm, ColData.num c) => some (nm, ColSummary.numS (numericDescribe c))
      | (_, ColData.obj _) => none)
  else
    ds.map (fun e =>
      match e with
      | (nm, ColData.num c) => (nm, ColSummary.numS (numericDescribe c))
      | (nm, ColData.obj c) => (nm, ColSummary.objS (c.filterMap id).length (nuniqueObj c)))

/-! ## Helper lemmas -/

/-- First-occurrence deduplication is idempotent. -/
theorem drop_duplicates_first_idem {α : Type _} [DecidableEq α] (l : List α) :
    drop_duplicates_first (drop_duplicates_first l) = drop_duplicates_first l := by
  simp [drop_duplicates_first, List.reverse_reverse, List.dedup_idem]

/-- Last-occurrence deduplication is idempotent. -/
theorem drop_duplicates_last_idem {α : Type _} [DecidableEq α] (l : List α) :
    drop_duplicates_last (drop_duplicates_last l) = drop_duplicates_last l := by
  simp [drop_duplicates_last, List.dedup_idem]

/-- The `foldr max 0` of a non-empty list of naturals is attained by one of
its elements. -/
theorem foldr_max_mem : ∀ (l : List ℕ), l ≠ [] → l.foldr max 0 ∈ l := by
  intro l hl
  induction l with
  | nil => exact absurd rfl hl
  | cons x xs ih =>
    cases xs with
    | nil => simp
    | cons y t =>
      have hfold : (x :: y :: t).foldr max 0 = max x ((y :: t).foldr max 0) := rfl
      rcases max_choice x ((y :: t).foldr max 0) with h | h
      · rw [hfold, h]
        exact List.mem_cons_self _ _
      · rw [hfold, h]
        exact List.mem_cons_of_mem _ (ih (by simp))

/-- For a non-empty value list, `modesQ` is non-empty: the maximal count is
attained by some distinct value. -/
theorem modesQ_ne_nil (l : List ℚ) (hl : l ≠ []) : modesQ l ≠ [] := by
  unfold modesQ
  intro hcon
  set d := (l.dedup).insertionSort (· ≤ ·) with hd
  set m := (d.map (fun v => l.count v)).foldr max 0 with hm
  have hdne : d ≠ [] := by
    intro h0
    have hperm := List.perm_insertionSort (· ≤ ·) l.dedup
    rw [← hd, h0] at hperm
    exact hl ((List.dedup_eq_nil l).mp (hperm.nil_eq).symm)
  have hmem : m ∈ d.map (fun v => l.count v) :=
    foldr_max_mem _ (by simpa using hdne)
  obtain ⟨v, hv, hvc⟩ := List.mem_map.mp hmem
  have : v ∈ d.filter (fun v => l.count v = m) :=
    List.mem_filter.mpr ⟨hv, by simpa using hvc⟩
  rw [hcon] at this
  exact List.not_mem_nil v this

/-- `modesQ` returns its values in ascending order. -/
theorem modesQ_sorted (l : List ℚ) : (modesQ l).Sorted (· ≤ ·) := by
  unfold modesQ
  exact (List.sorted_insertionSort (· ≤ ·) l.dedup).filter _

/-! ## Claim theorems -/

/-- C1.  The spec says duplicate-removal policy `'all'` (drop-all-duplicates)
retains no member of any duplicate group, so on rows
`[("a",1),("a",1),("b",2)]` it must return `[("b",2)]`.  The code's `'all'`
branch calls `drop_duplicates()` with the pandas default `keep='first'`,
so it actually returns `[("a",1),("b",2)]` — evaluating the embedded code at
the failing input exhibits the divergence. -/
theorem c1_all_behaves_as_keep_first :
    remove_duplicates "all" [("a", (1 : ℤ)), ("a", 1), ("b", 2)] = [("a", 1), ("b", 2)] ∧
    remove_duplicates "all" [("a", (1 : ℤ)), ("a", 1), ("b", 2)] ≠ [("b", 2)] := by
  constructor
  · rfl
  · decide

/-- C8.  Running the Duplicate Resolver twice with the same retention policy
(any of the three offered strategies) yields the same row list as running it
once: duplicate removal is idempotent. -/
theorem c8_remove_duplicates_idempotent {α : Type _} [DecidableEq α]
    (strat : String) (l : List α)
    (h : strat = "first" ∨ strat = "last" ∨ strat = "all") :
    remove_duplicates strat (remove_duplicates strat l) = remove_duplicates strat l := by
  rcases h with h | h | h <;> subst h <;>
    simp [remove_duplicates, drop_duplicates_first_idem, drop_duplicates_last_idem]

/-- Witness for C8 at a concrete strategy and row list. -/
theorem c8_witness :
    ("first" = "first" ∨ "first" = "last" ∨ "first" = "all") ∧
    remove_duplicates "first" (remove_duplicates "first" [1, 1, 2]) =
      remove_duplicates "first" [(1 : ℤ), 1, 2] :=
  ⟨Or.inl rfl, c8_remove_duplicates_idempotent "first" [1, 1, 2] (Or.inl rfl)⟩

/-- C5.  On a numeric column whose (sample) variance is zero — all non-null
values identical — the Outlier Detector returns an empty report for every
positive threshold, and (being a total function here) signals no error:
every z-score comparison against the threshold is false. -/
theorem c5_zero_variance_no_outliers (c : List (Option ℚ)) (t : ℚ)
    (_ht : 0 < t) (hv : sampleVar (nonNulls c) = 0) :
    detect_outliers c t = [] := by
  unfold detect_outliers
  rw [List.filterMap_eq_nil_iff]
  intro cell _
  cases cell with
  | none => rfl
  | some x => simp [hv]

/-- On the concrete constant column `[5, 5]` the sample variance is zero. -/
theorem sampleVar_const_example : sampleVar (nonNulls [some 5, some 5]) = 0 := by
  have h : nonNulls [some 5, some 5] = [5, 5] := rfl
  rw [h]
  norm_num [sampleVar, meanQ]

/-- Witness for C5: a constant column and threshold `2`. -/
theorem c5_witness :
    (0 : ℚ) < 2 ∧ sampleVar (nonNulls [some 5, some 5]) = 0 ∧
    detect_outliers [some 5, some 5] 2 = [] :=
  ⟨by norm_num, sampleVar_const_example,
    c5_zero_variance_no_outliers [some 5, some 5] 2 (by norm_num) sampleVar_const_example⟩

/-- C10.  The detector's z-scores use the sample (`ddof=1`) standard
deviation, the very estimator whose square the Summarizer reports as `std`;
on a single-row dataset that estimator is undefined (pandas `NaN`), so no
row is flagged for any threshold. -/
theorem c10_single_row_never_flagged :
    (∀ (cell : Option ℚ) (t : ℚ), detect_outliers [cell] t = []) ∧
    (∀ c : List (Option ℚ), (numericDescribe c).stdSq = sampleVar (nonNulls c)) := by
  constructor
  · intro cell t
    cases cell with
    | none => rfl
    | some x =>
      unfold detect_outliers
      rw [List.filterMap_eq_nil_iff]
      intro a ha
      rw [List.mem_singleton] at ha
      subst ha
      have hlen : (nonNulls [some x]).length = 1 := rfl
      simp [hlen]
  · intro c
    rfl

/-- Witness for C10 at a concrete cell and threshold. -/
theorem c10_witness :
    detect_outliers [some 7] 3 = [] ∧
    (numericDescribe [some 7]).stdSq = sampleVar (nonNulls [some 7]) :=
  ⟨c10_single_row_never_flagged.1 (some 7) 3, c10_single_row_never_flagged.2 [some 7]⟩

/-- C7 counterexample.  The claim says a text-like column with zero rows is
classified free-text (`string`); the code computes `nunique() = 0 ≤ 10` and
returns `categorical`. -/
theorem c7_counterexample :
    classifyObj [] ≠ FieldType.string ∧ classifyObj [] = FieldType.categorical := by
  constructor
  · intro h
    exact absurd h (by decide)
  · rfl

/-- C7 amended.  A text-like (`object`) column is classified `categorical`
exactly when its distinct non-null value count is at most `10`, and `string`
(free-text) otherwise; in particular the zero-row column, having `0` distinct
values, is classified `categorical`, not free-text. -/
theorem c7_classify_by_cardinality (c : List (Option String)) :
    (classifyObj c = FieldType.categorical ↔ nuniqueObj c ≤ 10) ∧
    (classifyObj c = FieldType.string ↔ ¬ nuniqueObj c ≤ 10) ∧
    classifyObj ([] : List (Option String)) = FieldType.categorical := by
  refine ⟨?_, ?_, rfl⟩ <;> by_cases h : nuniqueObj c ≤ 10 <;> simp [classifyObj, h]

/-- Witness for C7 at a concrete column. -/
theorem c7_witness :
    (classifyObj [some "a"] = FieldType.categorical ↔ nuniqueObj [some "a"] ≤ 10) ∧
    (classifyObj [some "a"] = FieldType.string ↔ ¬ nuniqueObj [some "a"] ≤ 10) ∧
    classifyObj ([] : List (Option String)) = FieldType.categorical :=
  c7_classify_by_cardinality [some "a"]

/-- C9.  Mode-fill on a dataset containing a numeric column whose cells are
all null aborts with an `IndexError` (modelled as the error flag / the
per-column `none`): the mode of an empty non-null set is the empty Series
and `.iloc[0]` is taken unconditionally. -/
theorem c9_mode_fill_all_null_errors (ds : Dataset) (i : ℕ) (nm : String)
    (c : List (Option ℚ)) (h1 : ds[i]? = some (nm, ColData.num c))
    (h2 : nonNulls c = []) :
    (modeFillRun ds).2 = true ∧ modeFillCol c = none := by
  have hcol : modeFillCol c = none := by
    unfold modeFillCol
    rw [h2]
    rfl
  refine ⟨?_, hcol⟩
  induction ds generalizing i with
  | nil => simp at h1
  | cons e rest ih =>
    obtain ⟨nm', cd⟩ := e
    cases cd with
    | obj c' =>
      cases i with
      | zero => simp at h1
      | succ j =>
        rw [List.getElem?_cons_succ] at h1
        simpa [modeFillRun] using ih j h1
    | num c' =>
      cases hm : modeFillCol c' with
      | none => simp [modeFillRun, hm]
      | some c2 =>
        cases i with
        | zero =>
          rw [List.getElem?_cons_zero] at h1
          obtain ⟨rfl, rfl⟩ : nm' = nm ∧ c' = c := by
            have := Option.some.inj h1
            exact ⟨congrArg Prod.fst this, by injection congrArg Prod.snd this⟩
          exact absurd hcol (by simp [hm])
        | succ j =>
          rw [List.getElem?_cons_succ] at h1
          simpa [modeFillRun, hm] using ih j h1

/-- Witness for C9: a single all-null numeric column. -/
theorem c9_witness :
    (([("a", ColData.num [none])] : Dataset)[0]? = some ("a", ColData.num [none])) ∧
    nonNulls [none] = [] ∧
    (modeFillRun [("a", ColData.num [none])]).2 = true ∧ modeFillCol [none] = none :=
  ⟨rfl, rfl, c9_mode_fill_all_null_errors [("a", ColData.num [none])] 0 "a" [none] rfl rfl⟩

/-- C4 counterexample.  On the column `[2, 2, 1, 1, null]` the values `2`
and `1` tie for the maximal count; the first-encountered tied value is `2`,
but pandas `mode()` returns the modes sorted ascending and `.iloc[0]` picks
`1`, so the null is filled with `1`, not `2`. -/
theorem c4_counterexample :
    modeFillCol [some 2, some 2, some 1, some 1, none] ≠
      some (fillWith 2 [some 2, some 2, some 1, some 1, none]) ∧
    modeFillCol [some 2, some 2, some 1, some 1, none] =
      some (fillWith 1 [some 2, some 2, some 1, some 1, none]) := by
  constructor <;> decide

/-- C4 amended.  For every numeric column with at least one non-null value,
mode-fill substitutes for every null the SMALLEST value among those attaining
the maximal occurrence count (pandas returns the tied modes sorted ascending
and the code takes `.iloc[0]`), not the first-encountered tied value. -/
theorem c4_mode_tie_smallest (c : List (Option ℚ)) (h : nonNulls c ≠ []) :
    ∃ m, modeFillCol c = some (fillWith m c) ∧
      m ∈ modesQ (nonNulls c) ∧ ∀ v ∈ modesQ (nonNulls c), m ≤ v := by
  obtain ⟨m, rest, hms⟩ : ∃ m rest, modesQ (nonNulls c) = m :: rest := by
    cases hq : modesQ (nonNulls c) with
    | nil => exact absurd hq (modesQ_ne_nil _ h)
    | cons a l => exact ⟨a, l, rfl⟩
  refine ⟨m, ?_, ?_, ?_⟩
  · unfold modeFillCol
    rw [hms]
  · rw [hms]
    exact List.mem_cons_self _ _
  · intro v hv
    have hs := modesQ_sorted (nonNulls c)
    rw [hms] at hv hs
    rcases List.mem_cons.mp hv with rfl | hv'
    · exact le_refl _
    · exact List.rel_of_sorted_cons hs v hv'

/-- Witness for C4 at the tied column of the counterexample. -/
theorem c4_witness :
    nonNulls [some 2, some 2, some 1, some 1, none] ≠ [] ∧
    ∃ m, modeFillCol [some 2, some 2, some 1, some 1, none] =
        some (fillWith m [some 2, some 2, some 1, some 1, none]) ∧
      m ∈ modesQ (nonNulls [some 2, some 2, some 1, some 1, none]) ∧
      ∀ v ∈ modesQ (nonNulls [some 2, some 2, some 1, some 1, none]), m ≤ v :=
  ⟨by decide, c4_mode_tie_smallest [some 2, some 2, some 1, some 1, none] (by decide)⟩

/-- The dataset refuting C2's atomicity: an object column with a null in
front of a numeric column with a null. -/
def dsC2 : Dataset := [("t", ColData.obj [some "x", none]), ("n", ColData.num [none])]

/-- C2 counterexample.  Custom-constant fill with an unparseable value on
`dsC2` raises the error, but the object column `"t"` has already been filled
in place with the text value by the time the numeric column is reached: the
dataset is mutated, refuting atomicity. -/
theorem c2_counterexample :
    (customFillRun none "abc" dsC2).2 = true ∧
    (customFillRun none "abc" dsC2).1 ≠ dsC2 := by
  constructor
  · rfl
  · decide

/-- Fill one column entry with the custom value as text when it is an object
column, leaving numeric columns unchanged (the state of the custom-fill loop
on the columns it visited before the first numeric one). -/
def fillColText (s : String) : String × ColData → String × ColData
  | (nm, ColData.obj c) => (nm, ColData.obj (fillObjCol s c))
  | (nm, ColData.num c) => (nm, ColData.num c)

/-- C2 amended.  Custom-constant fill with a value that does not parse as a
number, on a dataset containing a numeric column, fails (the uncaught
`ValueError` from `float(fill_value)`), and at failure every column strictly
before the first numeric column has been filled with the value as text while
the first numeric column and everything after it are unchanged: the stage is
atomic only up to the first numeric column, not per invocation. -/
theorem c2_custom_fill_not_atomic (s : String) (ds : Dataset)
    (h : ∃ e ∈ ds, isNum e.2 = true) :
    (customFillRun none s ds).2 = true ∧
    (customFillRun none s ds).1 =
      (ds.takeWhile (fun e => !isNum e.2)).map (fillColText s) ++
        ds.dropWhile (fun e => !isNum e.2) := by
  induction ds with
  | nil =>
    obtain ⟨e, he, _⟩ := h
    exact absurd he (List.not_mem_nil e)
  | cons hd rest ih =>
    obtain ⟨nm, cd⟩ := hd
    cases cd with
    | num c =>
      refine ⟨rfl, ?_⟩
      simp [customFillRun, List.takeWhile_cons, List.dropWhile_cons, isNum]
    | obj c =>
      have h' : ∃ e ∈ rest, isNum e.2 = true := by
        obtain ⟨e, he, hne⟩ := h
        rcases List.mem_cons.mp he with rfl | hmem
        · simp [isNum] at hne
        · exact ⟨e, hmem, hne⟩
      obtain ⟨ih1, ih2⟩ := ih h'
      refine ⟨?_, ?_⟩
      · simpa [customFillRun] using ih1
      · simp [customFillRun, List.takeWhile_cons, List.dropWhile_cons, isNum,
          fillColText, ih2]

/-- Witness for C2's amended statement at the counterexample dataset. -/
theorem c2_witness :
    (∃ e ∈ dsC2, isNum e.2 = true) ∧
    (customFillRun none "abc" dsC2).2 = true ∧
    (customFillRun none "abc" dsC2).1 =
      (dsC2.takeWhile (fun e => !isNum e.2)).map (fillColText "abc") ++
        dsC2.dropWhile (fun e => !isNum e.2) :=
  ⟨by decide, (c2_custom_fill_not_atomic "abc" dsC2 (by decide)).1,
    (c2_custom_fill_not_atomic "abc" dsC2 (by decide)).2⟩

/-- The dataset refuting C3's full coverage: one numeric column and one
object column. -/
def dsC3 : Dataset := [("n", ColData.num [some 1]), ("t", ColData.obj [some "x"])]

/-- C3 counterexample.  `describe()` on a frame with at least one numeric
column summarises only the numeric columns: the object column `"t"` of
`dsC3` gets no entry in the statistics table, refuting "an entry for every
column" (and with it the per-column frequency tables the claim promises
non-numeric columns). -/
theorem c3_counterexample :
    "t" ∈ dsC3.map Prod.fst ∧
    "t" ∉ (perform_statistical_analysis dsC3).map Prod.fst := by
  constructor <;> decide

/-- Projecting the names of the numeric-only description of a dataset gives
exactly the names of its numeric columns, in order. -/
theorem describe_names_eq_numeric_names (ds : Dataset) :
    (ds.filterMap (fun e =>
      match e with
      | (nm, ColData.num c) => some (nm, ColSummary.numS (numericDescribe c))
      | (_, ColData.obj _) => none)).map Prod.fst =
    (ds.filter (fun e => isNum e.2)).map Prod.fst := by
  induction ds with
  | nil => rfl
  | cons hd rest ih =>
    obtain ⟨nm, cd⟩ := hd
    cases cd with
    | num c => simp [List.filterMap_cons, List.filter_cons, isNum, ih]
    | obj c => simp [List.filterMap_cons, List.filter_cons, isNum, ih]

/-- C3 amended.  When the dataset has at least one numeric column,
`perform_statistical_analysis` produces an entry exactly for each numeric
column — count, mean, std, min, the 25th/50th/75th percentiles and max —
and non-numeric columns receive no entry at all (their frequency tables are
never computed). -/
theorem c3_describe_numeric_only (ds : Dataset)
    (h : ds.any (fun e => isNum e.2) = true) :
    (perform_statistical_analysis ds).map Prod.fst =
      (ds.filter (fun e => isNum e.2)).map Prod.fst ∧
    ∀ nm c, (nm, ColData.num c) ∈ ds →
      (nm, ColSummary.numS (numericDescribe c)) ∈ perform_statistical_analysis ds := by
  unfold perform_statistical_analysis
  rw [if_pos h]
  refine ⟨describe_names_eq_numeric_names ds, ?_⟩
  intro nm c hmem
  exact List.mem_filterMap.mpr ⟨(nm, ColData.num c), hmem, rfl⟩

/-- Witness for C3's amended statement at the counterexample dataset. -/
theorem c3_witness :
    dsC3.any (fun e => isNum e.2) = true ∧
    (perform_statistical_analysis dsC3).map Prod.fst =
      (dsC3.filter (fun e => isNum e.2)).map Prod.fst ∧
    ("n", ColSummary.numS (numericDescribe [some 1])) ∈ perform_statistical_analysis dsC3 :=
  ⟨rfl, (c3_describe_numeric_only dsC3 rfl).1,
    (c3_describe_numeric_only dsC3 rfl).2 "n" [some 1] (by decide)⟩

/-- C6 counterexample.  On a numeric column whose cells are all null, the
column's mean is `NaN` and `fillna(NaN)` is a no-op, so after mean-fill the
column still contains a null — refuting "after mean-fill, c contains no
nulls" for every dataset. -/
theorem c6_counterexample :
    meanFill [("n", ColData.num [none])] = [("n", ColData.num [none])] ∧
    ¬ (∀ x ∈ ([none] : List (Option ℚ)), x.isSome = true) := by
  constructor
  · rfl
  · decide

/-- Mapping a per-column function over the numeric columns acts index-wise. -/
theorem fillNumCols_getElem (f : List (Option ℚ) → List (Option ℚ))
    (ds : Dataset) (i : ℕ) :
    (fillNumCols f ds)[i]? = (ds[i]?).map (fun e =>
      match e with
      | (nm, ColData.num c) => (nm, ColData.num (f c))
      | (nm, ColData.obj c) => (nm, ColData.obj c)) := by
  unfold fillNumCols
  exact List.getElem?_map ..

/-- Object columns are untouched by the mode-fill loop, even when it aborts
on an all-null numeric column. -/
theorem modeFillRun_obj_preserved : ∀ (ds : Dataset) (i : ℕ) (nm : String)
    (l : List (Option String)), ds[i]? = some (nm, ColData.obj l) →
    (modeFillRun ds).1[i]? = some (nm, ColData.obj l) := by
  intro ds
  induction ds with
  | nil =>
    intro i nm l h
    simp at h
  | cons hd rest ih =>
    intro i nm l h
    obtain ⟨nm', cd⟩ := hd
    cases cd with
    | obj c' =>
      cases i with
      | zero => simpa [modeFillRun] using h
      | succ j =>
        rw [List.getElem?_cons_succ] at h
        simpa [modeFillRun] using ih j nm l h
    | num c' =>
      cases hm : modeFillCol c' with
      | none => simpa [modeFillRun, hm] using h
      | some c2 =>
        cases i with
        | zero =>
          rw [List.getElem?_cons_zero] at h
          simp at h
        | succ j =>
          rw [List.getElem?_cons_succ] at h
          simpa [modeFillRun, hm] using ih j nm l h

/-- C6 amended.  Mean-fill leaves object columns entirely untouched (as do
median-fill and the mode-fill loop), rewrites each numeric column by
`meanFillCol`, removes no row (column lengths are preserved), leaves every
non-null cell unchanged, and — provided the column has at least one non-null
value — leaves no null behind. -/
theorem c6_mean_fill_preserves (ds : Dataset) (col : List (Option ℚ)) :
    (∀ (i : ℕ) (nm : String) (l : List (Option String)),
        ds[i]? = some (nm, ColData.obj l) →
        (meanFill ds)[i]? = some (nm, ColData.obj l) ∧
        (medianFill ds)[i]? = some (nm, ColData.obj l) ∧
        (modeFillRun ds).1[i]? = some (nm, ColData.obj l)) ∧
    (∀ (i : ℕ) (nm : String) (l : List (Option ℚ)),
        ds[i]? = some (nm, ColData.num l) →
        (meanFill ds)[i]? = some (nm, ColData.num (meanFillCol l))) ∧
    (meanFillCol col).length = col.length ∧
    (nonNulls col ≠ [] → ∀ x ∈ meanFillCol col, x.isSome = true) ∧
    (∀ (j : ℕ) (v : ℚ), col[j]? = some (some v) →
      (meanFillCol col)[j]? = some (some v)) := by
  refine ⟨?_, ?_, ?_, ?_, ?_⟩
  · intro i nm l h
    refine ⟨?_, ?_, modeFillRun_obj_preserved ds i nm l h⟩
    · rw [show meanFill ds = fillNumCols meanFillCol ds from rfl,
        fillNumCols_getElem, h]
      rfl
    · rw [show medianFill ds = fillNumCols medianFillCol ds from rfl,
        fillNumCols_getElem, h]
      rfl
  · intro i nm l h
    rw [show meanFill ds = fillNumCols meanFillCol ds from rfl,
        fillNumCols_getElem, h]
    rfl
  · unfold meanFillCol
    split
    · rfl
    · exact List.length_map ..
  · intro hne x hx
    rw [meanFillCol, if_neg hne] at hx
    obtain ⟨y, _, rfl⟩ := List.mem_map.mp hx
    rfl
  · intro j v hjv
    unfold meanFillCol
    split
    · exact hjv
    · rw [fillWith, List.getElem?_map, hjv]
      rfl

/-- Witness for C6's amended statement at a concrete two-column dataset. -/
theorem c6_witness :
    (meanFill [("t", ColData.obj [some "x"]), ("n", ColData.num [some 1, none])])[0]? =
      some ("t", ColData.obj [some "x"]) ∧
    (modeFillRun [("t", ColData.obj [some "x"]), ("n", ColData.num [some 1, none])]).1[0]? =
      some ("t", ColData.obj [some "x"]) ∧
    (meanFill [("t", ColData.obj [some "x"]), ("n", ColData.num [some 1, none])])[1]? =
      some ("n", ColData.num (meanFillCol [some 1, none])) ∧
    (meanFillCol [some 1, none]).length = ([some 1, none] : List (Option ℚ)).length ∧
    (nonNulls [some 1, none] ≠ [] → ∀ x ∈ meanFillCol [some 1, none], x.isSome = true) ∧
    (meanFillCol [some 1, none])[0]? = some (some 1) := by
  have h := c6_mean_fill_preserves
    [("t", ColData.obj [some "x"]), ("n", ColData.num [some 1, none])] [some 1, none]
  exact ⟨(h.1 0 "t" [some "x"] rfl).1, (h.1 0 "t" [some "x"] rfl).2.2,
    h.2.1 1 "n" [some 1, none] rfl, h.2.2.1, fun _ => h.2.2.2.1 (by decide),
    h.2.2.2.2 0 1 rfl⟩

end DataTool
